import Mathlib

set_option maxRecDepth 8000

/- Verification development for the homework_bot repository.

   The two Python source files, homework.py and exceptions.py, are embedded
   shallowly: Python values appear as the inductive PyVal, raised Python
   exceptions as PyError carried in Except, the two loop variables of main
   (timestamp and last_message) as the structure BotState, and the
   observable side effects of a run (log records, delivery attempts,
   sleeps, the credential check) as a list of Event values.  The HTTP and
   Telegram transports are external collaborators; their per-cycle
   outcomes are inputs (CycleInput).  Modelling notes where the embedding
   simplifies a Python rendering detail are given inline. -/

/-- Embedded Python values: the subset of value shapes the program
    manipulates (JSON-decoded data, environment strings, timestamps). -/
inductive PyVal where
  | none : PyVal
  | int : Int → PyVal
  | str : String → PyVal
  | list : List PyVal → PyVal
  | dict : List (String × PyVal) → PyVal

/-- Embedded Python exceptions, each carrying its message text.
    connectionError stands for the (never importable) exceptions.ConnectionError
    raised by get_api_answer; any PyError may arrive as a cycle input. -/
inductive PyError where
  | typeError : String → PyError
  | keyError : String → PyError
  | valueError : String → PyError
  | importError : String → PyError
  | indexError : String → PyError
  | attributeError : String → PyError
  | connectionError : String → PyError
  deriving DecidableEq

/-- Python str() of an exception: its message.  (Python would wrap a
    KeyError argument in quotes; the quotes are elided here.) -/
def PyError.text : PyError → String
  | .typeError m => m
  | .keyError m => m
  | .valueError m => m
  | .importError m => m
  | .indexError m => m
  | .attributeError m => m
  | .connectionError m => m

/-- The name of a value's type, as used in error messages.  (Python
    renders type(x) with a class wrapper around this name; the wrapper
    is elided here because it would add nothing but punctuation.) -/
def PyVal.typeName : PyVal → String
  | .none => "NoneType"
  | .int _ => "int"
  | .str _ => "str"
  | .list _ => "list"
  | .dict _ => "dict"

def PyVal.isDict : PyVal → Bool
  | .dict _ => true
  | _ => false

def PyVal.isList : PyVal → Bool
  | .list _ => true
  | _ => false

/-- Python truth testing: None, 0, empty string, empty list and empty
    dict are falsy. -/
def pyFalsy : PyVal → Bool
  | .none => true
  | .int n => n == 0
  | .str s => s == ""
  | .list l => l.isEmpty
  | .dict d => d.isEmpty

def pyTruthy (v : PyVal) : Bool := !(pyFalsy v)

/-- Python: a or b. -/
def pyOr (a b : PyVal) : PyVal := if pyFalsy a then b else a

/-- Python str() of a value as interpolated into f-strings.  Container
    rendering is abbreviated (Python would recurse with repr). -/
def pyStr : PyVal → String
  | .none => "None"
  | .int n => toString n
  | .str s => s
  | .list _ => "[...]"
  | .dict _ => "\x7b...\x7d"

/-- Python: key in value (membership test).  On a dict it tests keys, on
    a list it tests elements, on a string it tests substrings; on other
    values Python raises TypeError. -/
def pyContains (v : PyVal) (key : String) : Except PyError Bool :=
  match v with
  | .dict d => .ok (d.any (fun p => p.1 == key))
  | .list l => .ok (l.any (fun x => match x with | .str s => s == key | _ => false))
  | .str s => .ok (decide ((s.splitOn key).length > 1))
  | w => .error (.typeError ("argument of type " ++ w.typeName ++ " is not iterable"))

/-- Python: value.get(key) with default None; only dicts have the method. -/
def pyGet (v : PyVal) (key : String) : Except PyError PyVal :=
  match v with
  | .dict d => .ok (((d.find? (fun p => p.1 == key)).map (fun p => p.2)).getD PyVal.none)
  | w => .error (.attributeError (w.typeName ++ " object has no attribute get"))

/-- Total variant of dict .get, used by main only on values that
    check_response has already certified to be dicts (the non-dict
    branch is unreachable there). -/
def pyGetD (v : PyVal) (key : String) : PyVal :=
  match v with
  | .dict d => ((d.find? (fun p => p.1 == key)).map (fun p => p.2)).getD PyVal.none
  | _ => PyVal.none

/-- First key lookup in an embedded dict body. -/
def pyLookup (d : List (String × PyVal)) (key : String) : Option PyVal :=
  (d.find? (fun p => p.1 == key)).map (fun p => p.2)

/-- Python: value[0]. -/
def pyIndex0 : PyVal → Except PyError PyVal
  | .list (x :: _) => .ok x
  | .list [] => .error (.indexError "list index out of range")
  | w => .error (.typeError (w.typeName ++ " object is not subscriptable"))

/- ------------------------------------------------------------------ -/
/- Message templates of homework.py (module-level string constants).
   Python .format interpolation is written as concatenation.           -/

def TOKEN_ABSENCE_MESSAGE (token : String) : String :=
  "Отсутствуют переменные окружения: " ++ token

def DELIVERY_ERROR_MESSAGE (message error : String) : String :=
  "Не удалось доставить сообщение " ++ message ++ ". Ошибка: " ++ error ++ "."

def HOMEWORK_KEY_MISSING_MESSAGE : String := "Ключ \"homeworks\" отсутствует."

def UNKNOWN_STATUS_MESSAGE (status : String) : String :=
  "Неизвестный статус работы: " ++ status

def HOMEWORK_NAME_MISSING_MESSAGE : String :=
  "Ключ \"homework_name\" отсутствует в ответе API."

def HOMEWORK_STATUS_MISSING_MESSAGE : String :=
  "Ключ \"status\" отсутствует в ответе API."

def NO_NEW_HOMEWORK_MESSAGE : String :=
  "В ответе API отсутствуют новые домашние работы."

def PROGRAM_FAIL_MESSAGE (error : String) : String :=
  "Сбой в работе программы " ++ error

def HOMEWORKS_NOT_LIST_MESSAGE (actual_type : String) : String :=
  "Ключу homeworks соответствует " ++ actual_type ++ ", а не список."

def API_ANSWER_NOT_DICTIONARY (actual_type : String) : String :=
  "Ответ от API является " ++ actual_type ++ ", а не словарем"

def MESSAGE_SENT_MESSAGE (message : String) : String :=
  "Отправлено сообщение " ++ message

/-- Python str() of a list of names, with the per-element quotes elided. -/
def pyStrList (l : List String) : String :=
  "[" ++ String.intercalate ", " l ++ "]"

def TOKEN_NAMES : List String :=
  ["PRACTICUM_TOKEN", "TELEGRAM_TOKEN", "TELEGRAM_CHAT_ID"]

def RETRY_PERIOD : Nat := 600

def HOMEWORK_VERDICTS : List (String × String) :=
  [("approved", "Работа проверена: ревьюеру всё понравилось. Ура!"),
   ("reviewing", "Работа взята на проверку ревьюером."),
   ("rejected", "Работа проверена: у ревьюера есть замечания.")]

/- ------------------------------------------------------------------ -/
/- Module initialisation (homework.py lines 1-62).                     -/

/-- The names defined at top level of exceptions.py. -/
def exceptions_module_names : List String := ["TokenAbsenceException"]

/-- The names that homework.py line 11 tries to bring in from exceptions. -/
def homework_requested_names : List String := ["InvalidJSONError", "ConnectionError"]

/-- Python from-module-bring-names: fails with ImportError at the first
    requested name the module does not define.  (Python mentions the
    module and name in the message; the message here is the name.) -/
def import_from_exceptions : Except PyError Unit :=
  match homework_requested_names.find? (fun n => !(exceptions_module_names.contains n)) with
  | some n => .error (.importError n)
  | Option.none => .ok ()

abbrev Env := List (String × String)

def envLookup (env : Env) (key : String) : Option String :=
  (env.find? (fun p => p.1 == key)).map (fun p => p.2)

def envHasKey (env : Env) (key : String) : Bool :=
  env.any (fun p => p.1 == key)

/-- os.environ.pop(key) with no default: removes the key, raising
    KeyError when it is absent. -/
def envPop (env : Env) (key : String) : Except PyError Env :=
  if envHasKey env key then .ok (env.filter (fun p => !(p.1 == key)))
  else .error (.keyError key)

/-- dotenv load: adds file entries whose keys are not already in the
    process environment (the default non-override behaviour). -/
def load_dotenv (file env : Env) : Env :=
  env ++ file.filter (fun p => !(envHasKey env p.1))

/-- The three module-level credential globals of homework.py. -/
structure Credentials where
  practicum_token : Option String
  telegram_token : Option String
  telegram_chat_id : Option String

/-- homework.py lines 13-52 (everything after the line-11 import): pop
    PRACTICUM_TOKEN from the environment, load the .env file, then read
    the three token globals with os.getenv. -/
def post_pop_init (env dotenvFile : Env) : Except PyError Credentials :=
  match envPop env "PRACTICUM_TOKEN" with
  | .error e => .error e
  | .ok env1 =>
    let env2 := load_dotenv dotenvFile env1
    .ok ⟨envLookup env2 "PRACTICUM_TOKEN",
         envLookup env2 "TELEGRAM_TOKEN",
         envLookup env2 "TELEGRAM_CHAT_ID"⟩

/-- Full module initialisation of homework.py: the line-11 import runs
    before anything else in the module body. -/
def module_init (env dotenvFile : Env) : Except PyError Credentials :=
  match import_from_exceptions with
  | .error e => .error e
  | .ok _ => post_pop_init env dotenvFile

/- ------------------------------------------------------------------ -/
/- Observable effects.                                                 -/

inductive LogLevel where
  | debug : LogLevel
  | error : LogLevel
  | critical : LogLevel
  deriving DecidableEq

inductive Event where
  | credentialCheck : Event
  | log : LogLevel → String → Event
  | sendAttempt : String → Event
  | sleep : Nat → Event
  deriving DecidableEq

def Event.isSend : Event → Bool
  | .sendAttempt _ => true
  | _ => false

def Event.isSleep : Event → Bool
  | .sleep _ => true
  | _ => false

def Event.isCred : Event → Bool
  | .credentialCheck => true
  | _ => false

def Event.isSendOrLog : Event → Bool
  | .sendAttempt _ => true
  | .log _ _ => true
  | _ => false

/- ------------------------------------------------------------------ -/
/- The components of homework.py.                                      -/

/-- globals().get(name) restricted to the three token globals. -/
def Credentials.get (c : Credentials) (name : String) : Option String :=
  if name == "PRACTICUM_TOKEN" then c.practicum_token
  else if name == "TELEGRAM_TOKEN" then c.telegram_token
  else if name == "TELEGRAM_CHAT_ID" then c.telegram_chat_id
  else Option.none

/-- Python falsiness of an optional environment string: absent (None)
    or empty. -/
def tokenFalsy : Option String → Bool
  | Option.none => true
  | some s => s == ""

/-- check_tokens (homework.py lines 67-84): collects every falsy token
    name; when any is missing, logs the full list at critical severity
    and raises ValueError with the same text. -/
def check_tokens (c : Credentials) : List Event × Except PyError Unit :=
  let missing_tokens := TOKEN_NAMES.filter (fun name => tokenFalsy (c.get name))
  if missing_tokens.isEmpty then ([], .ok ())
  else
    ([Event.log LogLevel.critical (TOKEN_ABSENCE_MESSAGE (pyStrList missing_tokens))],
     .error (.valueError (TOKEN_ABSENCE_MESSAGE (pyStrList missing_tokens))))

/-- send_message (homework.py lines 87-107): one delivery attempt, True
    on success, False on failure, never raises.  The transport outcome
    is an input: Option.none models success, some e a transport error
    whose text is e. -/
def send_message (transport : Option String) (message : String) : Bool × List Event :=
  match transport with
  | Option.none =>
    (true, [Event.sendAttempt message,
            Event.log LogLevel.debug (MESSAGE_SENT_MESSAGE message)])
  | some e =>
    (false, [Event.sendAttempt message,
             Event.log LogLevel.error (DELIVERY_ERROR_MESSAGE message e)])

/-- check_response (homework.py lines 156-182): the response must be a
    dict, must contain the key homeworks, and that key must hold a list. -/
def check_response (response : PyVal) : Except PyError Unit :=
  match response with
  | .dict d =>
    if d.any (fun p => p.1 == "homeworks") then
      match (d.find? (fun p => p.1 == "homeworks")).map (fun p => p.2) with
      | some (PyVal.list _) => .ok ()
      | some hw => .error (.typeError (HOMEWORKS_NOT_LIST_MESSAGE hw.typeName))
      | Option.none => .error (.keyError HOMEWORK_KEY_MISSING_MESSAGE)
    else .error (.keyError HOMEWORK_KEY_MISSING_MESSAGE)
  | v => .error (.typeError (API_ANSWER_NOT_DICTIONARY v.typeName))

/-- HOMEWORK_VERDICTS.get(status): a hashable key that is absent maps to
    None; an unhashable key raises TypeError. -/
def verdictsGet (key : PyVal) : Except PyError PyVal :=
  match key with
  | .str s =>
    .ok (match HOMEWORK_VERDICTS.find? (fun p => p.1 == s) with
         | some p => PyVal.str p.2
         | Option.none => PyVal.none)
  | .list _ => .error (.typeError "unhashable type: list")
  | .dict _ => .error (.typeError "unhashable type: dict")
  | _ => .ok PyVal.none

/-- status in HOMEWORK_VERDICTS.keys() for a key that verdictsGet has
    already certified hashable. -/
def verdictsContains (key : PyVal) : Bool :=
  match key with
  | .str s => HOMEWORK_VERDICTS.any (fun p => p.1 == s)
  | _ => false

/-- The f-string of parse_status line 209. -/
def statusMessage (name verdict : String) : String :=
  "Изменился статус проверки работы \"" ++ name ++ "\". " ++ verdict

/-- parse_status (homework.py lines 185-209): checks the two keys in
    order, looks the status up in the verdict catalog, rejects a status
    outside the catalog with ValueError carrying the offending value,
    and otherwise renders the notification text. -/
def parse_status (homework : PyVal) : Except PyError String :=
  match pyContains homework "homework_name" with
  | .error e => .error e
  | .ok hasName =>
    if !hasName then .error (.keyError HOMEWORK_NAME_MISSING_MESSAGE)
    else
      match pyContains homework "status" with
      | .error e => .error e
      | .ok hasStatus =>
        if !hasStatus then .error (.keyError HOMEWORK_STATUS_MISSING_MESSAGE)
        else
          match pyGet homework "status" with
          | .error e => .error e
          | .ok status =>
            match pyGet homework "homework_name" with
            | .error e => .error e
            | .ok homework_name =>
              match verdictsGet status with
              | .error e => .error e
              | .ok verdict =>
                if !(verdictsContains status) then
                  .error (.valueError (UNKNOWN_STATUS_MESSAGE (pyStr status)))
                else .ok (statusMessage (pyStr homework_name) (pyStr verdict))

/- ------------------------------------------------------------------ -/
/- The orchestrator loop (homework.py lines 212-237).                  -/

/-- The two loop variables of main: timestamp and last_message. -/
structure BotState where
  timestamp : PyVal
  last_message : String

/-- One loop iteration's external outcomes: what get_api_answer produced
    (a decoded JSON value, or the error it raised), and the transport
    outcome of a send_message call, were one made this cycle (at most
    one send happens per cycle). -/
structure CycleInput where
  api : Except PyError PyVal
  transport : Option String

/-- The shared send-and-update step (homework.py lines 227-230 and
    234-236): when the candidate message differs from last_message,
    attempt delivery; only on reported success assign last_message and,
    in the normal path, the new timestamp (the error path passes the old
    timestamp unchanged). -/
def notify_step (st : BotState) (transport : Option String) (message : String)
    (newTs : PyVal) : BotState × List Event :=
  if st.last_message ≠ message then
    let r := send_message transport message
    if r.1 then (⟨newTs, message⟩, r.2)
    else (st, r.2)
  else (st, [])

/-- The try block of main (homework.py lines 219-230). -/
def try_block (st : BotState) (inp : CycleInput) :
    Except PyError (BotState × List Event) :=
  match inp.api with
  | .error e => .error e
  | .ok response =>
    match check_response response with
    | .error e => .error e
    | .ok _ =>
      let homeworks := pyGetD response "homeworks"
      if pyFalsy homeworks then
        .ok (st, [Event.log LogLevel.debug NO_NEW_HOMEWORK_MESSAGE])
      else
        match pyIndex0 homeworks with
        | .error e => .error e
        | .ok first =>
          match parse_status first with
          | .error e => .error e
          | .ok message =>
            .ok (notify_step st inp.transport message
                  (pyOr st.timestamp (pyGetD response "current_date")))

/-- One full iteration of the while loop (homework.py lines 218-237):
    the try block, the catch-all except branch that logs the diagnostic
    and re-runs the send-and-update step with the old timestamp, and the
    unconditional sleep. -/
def run_cycle (st : BotState) (inp : CycleInput) : BotState × List Event :=
  let r :=
    match try_block st inp with
    | .ok s => s
    | .error err =>
      let message := PROGRAM_FAIL_MESSAGE err.text
      let n := notify_step st inp.transport message st.timestamp
      (n.1, Event.log LogLevel.error message :: n.2)
  (r.1, r.2 ++ [Event.sleep RETRY_PERIOD])

/-- A finite prefix of the infinite while loop, one CycleInput per
    iteration. -/
def run_cycles (st : BotState) : List CycleInput → BotState × List Event
  | [] => (st, [])
  | inp :: rest =>
    let r := run_cycle st inp
    let r2 := run_cycles r.1 rest
    (r2.1, r.2 ++ r2.2)

/-- main (homework.py lines 212-237) over a finite schedule of cycle
    inputs: the credential check runs first and its ValueError
    propagates out of main (terminating the process); otherwise the loop
    starts from the wall-clock timestamp and the no-new-homework
    sentinel. -/
def homework_main (c : Credentials) (t0 : Int) (inputs : List CycleInput) :
    List Event × Except PyError BotState :=
  let r := check_tokens c
  match r.2 with
  | .error e => (Event.credentialCheck :: r.1, .error e)
  | .ok _ =>
    let st0 : BotState := ⟨PyVal.int t0, NO_NEW_HOMEWORK_MESSAGE⟩
    let r2 := run_cycles st0 inputs
    (Event.credentialCheck :: (r.1 ++ r2.2), .ok r2.1)

/-- A whole process run: module initialisation (which performs the
    line-11 import first), then main.  When initialisation raises, no
    event is ever produced. -/
def program_run (env dotenvFile : Env) (t0 : Int) (inputs : List CycleInput) :
    List Event × Except PyError BotState :=
  match module_init env dotenvFile with
  | .error e => ([], .error e)
  | .ok creds => homework_main creds t0 inputs

/-- The candidate notification text a cycle input would produce, when
    the cycle reaches parse_status successfully; mirrors the branch
    structure of try_block. -/
def cycle_candidate (inp : CycleInput) : Option String :=
  match inp.api with
  | .error _ => Option.none
  | .ok response =>
    match check_response response with
    | .error _ => Option.none
    | .ok _ =>
      let homeworks := pyGetD response "homeworks"
      if pyFalsy homeworks then Option.none
      else
        match pyIndex0 homeworks with
        | .error _ => Option.none
        | .ok first =>
          match parse_status first with
          | .error _ => Option.none
          | .ok message => some message

/- ------------------------------------------------------------------ -/
/- Helper lemmas.                                                      -/

/-- find? for a key commutes with a filter that keeps every entry
    carrying that key. -/
theorem find?_filter_key (q : String × String → Bool) (k : String) (d : Env)
    (h : ∀ p : String × String, p.1 = k → q p = true) :
    (d.filter q).find? (fun p => p.1 == k) = d.find? (fun p => p.1 == k) := by
  induction d with
  | nil => rfl
  | cons a l ih =>
    by_cases hk : a.1 = k
    · simp [List.filter_cons, h a hk, List.find?_cons, hk]
    · by_cases hq : q a = true
      · simp [List.filter_cons, hq, List.find?_cons, hk, ih]
      · simp [List.filter_cons, hq, List.find?_cons, hk, ih]

/-- After the PRACTICUM_TOKEN entries are removed from the process
    environment, the value load_dotenv leaves under that key is exactly
    the .env file's value. -/
theorem envLookup_load_dotenv_filtered (env dotenvFile : Env) (k : String) :
    envLookup (load_dotenv dotenvFile (env.filter (fun p => !(p.1 == k)))) k
      = envLookup dotenvFile k := by
  have h1 : (env.filter (fun p => !(p.1 == k))).find? (fun p => p.1 == k)
      = Option.none := by
    rw [List.find?_eq_none]
    intro x hx
    have hf := List.of_mem_filter hx
    simp only [Bool.not_eq_true', beq_eq_false_iff_ne, ne_eq] at hf
    simp only [beq_iff_eq]
    exact hf
  have h2 : envHasKey (env.filter (fun p => !(p.1 == k))) k = false := by
    unfold envHasKey
    rw [Bool.eq_false_iff]
    intro hany
    obtain ⟨x, hx, hpx⟩ := List.any_eq_true.mp hany
    have hf := List.of_mem_filter hx
    simp only [Bool.not_eq_true', beq_eq_false_iff_ne, ne_eq] at hf
    simp only [beq_iff_eq] at hpx
    exact hf hpx
  unfold load_dotenv envLookup
  rw [List.find?_append, h1, Option.none_or,
      find?_filter_key _ _ dotenvFile (fun p hp => by rw [hp, h2]; rfl)]

/-- A successful first lookup of a key implies the membership test for
    that key succeeds. -/
theorem any_of_lookup {d : List (String × PyVal)} {k : String} {v : PyVal}
    (h : pyLookup d k = some v) : (d.any fun p => p.1 == k) = true := by
  unfold pyLookup at h
  obtain ⟨q, hf, hq⟩ := Option.map_eq_some'.mp h
  have hqmem := List.mem_of_find?_eq_some hf
  have hqp := List.find?_some hf
  exact List.any_eq_true.mpr ⟨q, hqmem, hqp⟩

/-- check_response on a dict, by computation. -/
theorem check_response_dict (d : List (String × PyVal)) :
    check_response (PyVal.dict d)
      = (if (d.any fun p => p.1 == "homeworks") = true then
           match (d.find? (fun p => p.1 == "homeworks")).map (fun p => p.2) with
           | some (PyVal.list _) => Except.ok ()
           | some hw => Except.error (PyError.typeError (HOMEWORKS_NOT_LIST_MESSAGE hw.typeName))
           | Option.none => Except.error (PyError.keyError HOMEWORK_KEY_MISSING_MESSAGE)
         else Except.error (PyError.keyError HOMEWORK_KEY_MISSING_MESSAGE)) := rfl

/-- verdictsGet on a string key, by computation. -/
theorem verdictsGet_str (s : String) :
    verdictsGet (PyVal.str s)
      = Except.ok (match HOMEWORK_VERDICTS.find? (fun p => p.1 == s) with
                   | some p => PyVal.str p.2
                   | Option.none => PyVal.none) := rfl

/-- parse_status on a dict, with the membership tests and lookups
    spelled out; holds by computation. -/
theorem parse_status_dict (d : List (String × PyVal)) :
    parse_status (PyVal.dict d)
      = (if !(d.any (fun p => p.1 == "homework_name")) then
           Except.error (PyError.keyError HOMEWORK_NAME_MISSING_MESSAGE)
         else if !(d.any (fun p => p.1 == "status")) then
           Except.error (PyError.keyError HOMEWORK_STATUS_MISSING_MESSAGE)
         else
           let status := ((d.find? (fun p => p.1 == "status")).map (fun p => p.2)).getD PyVal.none
           let hwname := ((d.find? (fun p => p.1 == "homework_name")).map (fun p => p.2)).getD PyVal.none
           match verdictsGet status with
           | .error e => .error e
           | .ok verdict =>
             if !(verdictsContains status) then
               Except.error (PyError.valueError (UNKNOWN_STATUS_MESSAGE (pyStr status)))
             else Except.ok (statusMessage (pyStr hwname) (pyStr verdict))) := rfl

/- ------------------------------------------------------------------ -/
/- Claim theorems.                                                     -/

/-- C1: homework.py line 11 asks exceptions.py for InvalidJSONError and
    ConnectionError, but exceptions.py defines only TokenAbsenceException,
    so every run of the program fails during module initialisation with
    ImportError, before the credential check and before any poll cycle:
    the run produces no event at all. -/
theorem c1_startup_always_ImportError (env dotenvFile : Env) (t0 : Int)
    (inputs : List CycleInput) :
    program_run env dotenvFile t0 inputs
      = ([], Except.error (PyError.importError "InvalidJSONError")) := rfl

/-- C3 counterexample: with PRACTICUM_TOKEN absent from the environment,
    startup raises ImportError from the line-11 import, not the KeyError
    the claim predicts. -/
theorem c3_counterexample :
    module_init [] [] = Except.error (PyError.importError "InvalidJSONError")
    ∧ PyError.importError "InvalidJSONError" ≠ PyError.keyError "PRACTICUM_TOKEN" :=
  ⟨rfl, by decide⟩

/-- C3 (amended): homework.py line 13 pops PRACTICUM_TOKEN before
    load_dotenv runs; in the initialisation sequence that follows the
    line-11 import, absence of the variable raises KeyError, and when it
    is present its value is discarded, so the practicum token that
    reaches the credential check can come only from the .env file.  In
    the code as written, the ImportError of line 11 preempts this
    sequence on every run. -/
theorem c3_pop_before_dotenv :
    (∀ env dotenvFile : Env, envHasKey env "PRACTICUM_TOKEN" = false →
      post_pop_init env dotenvFile
        = Except.error (PyError.keyError "PRACTICUM_TOKEN"))
    ∧ (∀ env dotenvFile : Env, envHasKey env "PRACTICUM_TOKEN" = true →
      ∃ c : Credentials, post_pop_init env dotenvFile = Except.ok c
        ∧ c.practicum_token = envLookup dotenvFile "PRACTICUM_TOKEN") := by
  constructor
  · intro env dotenvFile h
    unfold post_pop_init envPop
    rw [h]
    rfl
  · intro env dotenvFile h
    have hpop : envPop env "PRACTICUM_TOKEN"
        = Except.ok (env.filter (fun p => !(p.1 == "PRACTICUM_TOKEN"))) := by
      unfold envPop
      rw [h]
      rfl
    refine ⟨⟨envLookup (load_dotenv dotenvFile (env.filter (fun p => !(p.1 == "PRACTICUM_TOKEN")))) "PRACTICUM_TOKEN",
             envLookup (load_dotenv dotenvFile (env.filter (fun p => !(p.1 == "PRACTICUM_TOKEN")))) "TELEGRAM_TOKEN",
             envLookup (load_dotenv dotenvFile (env.filter (fun p => !(p.1 == "PRACTICUM_TOKEN")))) "TELEGRAM_CHAT_ID"⟩,
           ?_, ?_⟩
    · unfold post_pop_init
      rw [hpop]
    · exact envLookup_load_dotenv_filtered env dotenvFile "PRACTICUM_TOKEN"

/-- C3 witness: at concrete environments, the amended statement holds:
    an empty environment makes the post-pop sequence raise KeyError, and
    with the variable present its value is replaced by the .env value. -/
theorem c3_pop_before_dotenv_witness :
    post_pop_init [] [] = Except.error (PyError.keyError "PRACTICUM_TOKEN")
    ∧ ∃ c : Credentials,
        post_pop_init [("PRACTICUM_TOKEN", "from-env")]
            [("PRACTICUM_TOKEN", "from-dotenv")] = Except.ok c
        ∧ c.practicum_token
            = envLookup [("PRACTICUM_TOKEN", "from-dotenv")] "PRACTICUM_TOKEN" :=
  ⟨c3_pop_before_dotenv.1 [] [] rfl,
   c3_pop_before_dotenv.2 [("PRACTICUM_TOKEN", "from-env")]
     [("PRACTICUM_TOKEN", "from-dotenv")] rfl⟩

/-- C4: check_response applies its three rules in order: a non-dict
    response fails with the not-a-mapping type error naming the actual
    type; a dict without the key homeworks fails with the missing-key
    error; a dict whose homeworks value is not a list fails with the
    wrong-type error naming the actual type; otherwise validation
    succeeds — in particular the presence or absence of current_date is
    never consulted. -/
theorem c4_check_response_rules :
    (∀ v : PyVal, v.isDict = false →
      check_response v
        = Except.error (PyError.typeError (API_ANSWER_NOT_DICTIONARY v.typeName)))
    ∧ (∀ d : List (String × PyVal), (d.any (fun p => p.1 == "homeworks")) = false →
      check_response (PyVal.dict d)
        = Except.error (PyError.keyError HOMEWORK_KEY_MISSING_MESSAGE))
    ∧ (∀ (d : List (String × PyVal)) (hw : PyVal),
        pyLookup d "homeworks" = some hw → hw.isList = false →
      check_response (PyVal.dict d)
        = Except.error (PyError.typeError (HOMEWORKS_NOT_LIST_MESSAGE hw.typeName)))
    ∧ (∀ (d : List (String × PyVal)) (l : List PyVal),
        pyLookup d "homeworks" = some (PyVal.list l) →
      check_response (PyVal.dict d) = Except.ok ()) := by
  refine ⟨?_, ?_, ?_, ?_⟩
  · intro v h
    cases v <;> simp_all [check_response, PyVal.isDict]
  · intro d h
    rw [check_response_dict, h]
    rfl
  · intro d hw h1 h2
    have hany := any_of_lookup h1
    have hmap := h1
    unfold pyLookup at hmap
    rw [check_response_dict, if_pos hany, hmap]
    cases hw <;> simp_all [PyVal.isList]
  · intro d l h1
    have hany := any_of_lookup h1
    have hmap := h1
    unfold pyLookup at hmap
    rw [check_response_dict, if_pos hany, hmap]

/-- C4 witness: the four rules at concrete responses. -/
theorem c4_check_response_rules_witness :
    check_response (PyVal.int 3)
      = Except.error (PyError.typeError (API_ANSWER_NOT_DICTIONARY "int"))
    ∧ check_response (PyVal.dict [])
      = Except.error (PyError.keyError HOMEWORK_KEY_MISSING_MESSAGE)
    ∧ check_response (PyVal.dict [("homeworks", PyVal.int 7)])
      = Except.error (PyError.typeError (HOMEWORKS_NOT_LIST_MESSAGE "int"))
    ∧ check_response (PyVal.dict [("homeworks", PyVal.list [])]) = Except.ok () :=
  ⟨c4_check_response_rules.1 (PyVal.int 3) rfl,
   c4_check_response_rules.2.1 [] rfl,
   c4_check_response_rules.2.2.1 [("homeworks", PyVal.int 7)] (PyVal.int 7) rfl rfl,
   c4_check_response_rules.2.2.2 [("homeworks", PyVal.list [])] [] rfl⟩

/-- C5: a submission dict carrying the key homework_name and a string
    status outside the closed set approved, reviewing, rejected makes
    parse_status fail with the unknown-status ValueError, and the
    offending value appears in the error text. -/
theorem c5_unknown_status (d : List (String × PyVal)) (s : String)
    (hname : d.any (fun p => p.1 == "homework_name") = true)
    (hstatus : pyLookup d "status" = some (PyVal.str s))
    (h1 : s ≠ "approved") (h2 : s ≠ "reviewing") (h3 : s ≠ "rejected") :
    parse_status (PyVal.dict d)
      = Except.error (PyError.valueError (UNKNOWN_STATUS_MESSAGE s))
    ∧ ∃ pre, UNKNOWN_STATUS_MESSAGE s = pre ++ s := by
  have hany2 := any_of_lookup hstatus
  have hmap := hstatus
  unfold pyLookup at hmap
  have e1 : ("approved" == s) = false := beq_eq_false_iff_ne.mpr (fun h => h1 h.symm)
  have e2 : ("reviewing" == s) = false := beq_eq_false_iff_ne.mpr (fun h => h2 h.symm)
  have e3 : ("rejected" == s) = false := beq_eq_false_iff_ne.mpr (fun h => h3 h.symm)
  refine ⟨?_, "Неизвестный статус работы: ", rfl⟩
  rw [parse_status_dict, hname, hany2, hmap]
  simp only [Bool.not_true, if_false, Option.getD_some]
  rw [verdictsGet_str]
  simp [verdictsContains, HOMEWORK_VERDICTS, List.find?_cons, e1, e2, e3, pyStr]

/-- C5 witness: the plausible but unregistered status graded is rejected
    with its value in the error text. -/
theorem c5_unknown_status_witness :
    parse_status (PyVal.dict [("homework_name", PyVal.str "proj1"),
                              ("status", PyVal.str "graded")])
      = Except.error (PyError.valueError (UNKNOWN_STATUS_MESSAGE "graded"))
    ∧ ∃ pre, UNKNOWN_STATUS_MESSAGE "graded" = pre ++ "graded" :=
  c5_unknown_status [("homework_name", PyVal.str "proj1"), ("status", PyVal.str "graded")]
    "graded" rfl rfl (by decide) (by decide) (by decide)

/-- C9: a submission dict with a text homework_name and a status found
    in the verdict catalog parses to exactly the rendered notification
    text; in particular proj1 with status reviewing renders the expected
    message. -/
theorem c9_parse_success :
    (∀ (d : List (String × PyVal)) (name s verdict : String),
      pyLookup d "homework_name" = some (PyVal.str name) →
      pyLookup d "status" = some (PyVal.str s) →
      HOMEWORK_VERDICTS.find? (fun p => p.1 == s) = some (s, verdict) →
      parse_status (PyVal.dict d) = Except.ok (statusMessage name verdict))
    ∧ parse_status (PyVal.dict [("homework_name", PyVal.str "proj1"),
                                ("status", PyVal.str "reviewing")])
      = Except.ok "Изменился статус проверки работы \"proj1\". Работа взята на проверку ревьюером." := by
  refine ⟨?_, rfl⟩
  intro d name s verdict hname hstatus hcat
  have hany1 := any_of_lookup hname
  have hany2 := any_of_lookup hstatus
  have hmapn := hname
  unfold pyLookup at hmapn
  have hmaps := hstatus
  unfold pyLookup at hmaps
  have hcmem := List.mem_of_find?_eq_some hcat
  have hcp := List.find?_some hcat
  have hcontains : verdictsContains (PyVal.str s) = true := by
    unfold verdictsContains
    exact List.any_eq_true.mpr ⟨(s, verdict), hcmem, hcp⟩
  rw [parse_status_dict, hany1, hany2, hmapn, hmaps]
  simp only [Bool.not_true, if_false, Option.getD_some]
  rw [verdictsGet_str, hcat]
  simp [hcontains, pyStr]

/-- C9 witness: the general success rule instantiated at proj1 with
    status reviewing. -/
theorem c9_parse_success_witness :
    parse_status (PyVal.dict [("homework_name", PyVal.str "proj1"),
                              ("status", PyVal.str "reviewing")])
      = Except.ok (statusMessage "proj1" "Работа взята на проверку ревьюером.") :=
  c9_parse_success.1 [("homework_name", PyVal.str "proj1"),
    ("status", PyVal.str "reviewing")] "proj1" "reviewing"
    "Работа взята на проверку ревьюером." rfl rfl rfl

/- Helper lemmas about the orchestrator cycle. -/

/-- notify_step does nothing when the candidate equals last_message. -/
theorem notify_step_eq (st : BotState) (tr : Option String) (m : String) (ts : PyVal)
    (h : st.last_message = m) : notify_step st tr m ts = (st, []) := by
  unfold notify_step
  simp [h]

/-- notify_step on a changed message with a successful transport. -/
theorem notify_step_ok (st : BotState) (m : String) (ts : PyVal)
    (h : st.last_message ≠ m) :
    notify_step st Option.none m ts
      = (⟨ts, m⟩, [Event.sendAttempt m,
                   Event.log LogLevel.debug (MESSAGE_SENT_MESSAGE m)]) := by
  unfold notify_step send_message
  simp [h]

/-- notify_step on a changed message with a failing transport. -/
theorem notify_step_fail (st : BotState) (e : String) (m : String) (ts : PyVal)
    (h : st.last_message ≠ m) :
    notify_step st (some e) m ts
      = (st, [Event.sendAttempt m,
              Event.log LogLevel.error (DELIVERY_ERROR_MESSAGE m e)]) := by
  unfold notify_step send_message
  simp [h]

/-- A failing transport never changes the state. -/
theorem notify_step_fail_state (st : BotState) (e : String) (m : String) (ts : PyVal) :
    (notify_step st (some e) m ts).1 = st := by
  by_cases h : st.last_message = m
  · rw [notify_step_eq st (some e) m ts h]
  · rw [notify_step_fail st e m ts h]

/-- The state after notify_step is the old one, or the transport
    succeeded on a changed message and the new state records it. -/
theorem notify_step_state (st : BotState) (tr : Option String) (m : String) (ts : PyVal) :
    (notify_step st tr m ts).1 = st
    ∨ (tr = Option.none ∧ st.last_message ≠ m ∧ notify_step st tr m ts
        = (⟨ts, m⟩, [Event.sendAttempt m,
                     Event.log LogLevel.debug (MESSAGE_SENT_MESSAGE m)])) := by
  by_cases h : st.last_message = m
  · left
    rw [notify_step_eq st tr m ts h]
  · cases tr with
    | none => exact Or.inr ⟨rfl, h, notify_step_ok st m ts h⟩
    | some e =>
      left
      exact notify_step_fail_state st e m ts


/-- The timestamp after notify_step is the old one or the supplied one. -/
theorem notify_step_timestamp (st : BotState) (tr : Option String) (m : String) (ts : PyVal) :
    (notify_step st tr m ts).1.timestamp = st.timestamp
    ∨ (notify_step st tr m ts).1.timestamp = ts := by
  rcases notify_step_state st tr m ts with h | ⟨_, _, h⟩
  · left
    rw [h]
  · right
    rw [h]

/-- Every event notify_step emits is a delivery attempt or a log line. -/
theorem notify_step_events (st : BotState) (tr : Option String) (m : String) (ts : PyVal) :
    ∀ e ∈ (notify_step st tr m ts).2, Event.isSendOrLog e = true := by
  intro e he
  by_cases h : st.last_message = m
  · rw [notify_step_eq st tr m ts h] at he
    simp at he
  · cases tr with
    | none =>
      rw [notify_step_ok st m ts h] at he
      simp only [List.mem_cons, List.not_mem_nil, or_false] at he
      rcases he with rfl | rfl <;> rfl
    | some e' =>
      rw [notify_step_fail st e' m ts h] at he
      simp only [List.mem_cons, List.not_mem_nil, or_false] at he
      rcases he with rfl | rfl <;> rfl

/-- A delivery of a changed message is attempted whatever the transport
    outcome. -/
theorem notify_step_send_mem (st : BotState) (tr : Option String) (m : String) (ts : PyVal)
    (h : st.last_message ≠ m) :
    Event.sendAttempt m ∈ (notify_step st tr m ts).2 := by
  cases tr with
  | none =>
    rw [notify_step_ok st m ts h]
    simp
  | some e =>
    rw [notify_step_fail st e m ts h]
    simp

/-- notify_step attempts exactly one delivery when the message changed,
    none otherwise. -/
theorem notify_step_send_count (st : BotState) (tr : Option String) (m : String) (ts : PyVal) :
    ((notify_step st tr m ts).2.countP Event.isSend)
      = if st.last_message = m then 0 else 1 := by
  by_cases h : st.last_message = m
  · rw [notify_step_eq st tr m ts h, if_pos h]
    rfl
  · rw [if_neg h]
    cases tr with
    | none =>
      rw [notify_step_ok st m ts h]
      rfl
    | some e =>
      rw [notify_step_fail st e m ts h]
      rfl

/-- Exhaustive description of the try block: it raises (and then the
    candidate is undefined), or logs the empty-homeworks debug line, or
    runs notify_step on the parsed candidate message. -/
theorem try_block_cases (st : BotState) (inp : CycleInput) :
    (∃ e, cycle_candidate inp = Option.none ∧ try_block st inp = Except.error e)
    ∨ (cycle_candidate inp = Option.none ∧ try_block st inp
        = Except.ok (st, [Event.log LogLevel.debug NO_NEW_HOMEWORK_MESSAGE]))
    ∨ (∃ m response, cycle_candidate inp = some m ∧ inp.api = Except.ok response
        ∧ try_block st inp = Except.ok (notify_step st inp.transport m
            (pyOr st.timestamp (pyGetD response "current_date")))) := by
  cases hapi : inp.api with
  | error e =>
    refine Or.inl ⟨e, ?_, ?_⟩
    · simp only [cycle_candidate, hapi]
    · simp only [try_block, hapi]
  | ok response =>
    cases hchk : check_response response with
    | error e =>
      refine Or.inl ⟨e, ?_, ?_⟩
      · simp only [cycle_candidate, hapi, hchk]
      · simp only [try_block, hapi, hchk]
    | ok u =>
      by_cases hf : pyFalsy (pyGetD response "homeworks") = true
      · refine Or.inr (Or.inl ⟨?_, ?_⟩)
        · simp [cycle_candidate, hapi, hchk, hf]
        · simp [try_block, hapi, hchk, hf]
      · cases hidx : pyIndex0 (pyGetD response "homeworks") with
        | error e =>
          refine Or.inl ⟨e, ?_, ?_⟩
          · simp [cycle_candidate, hapi, hchk, hf, hidx]
          · simp [try_block, hapi, hchk, hf, hidx]
        | ok first =>
          cases hp : parse_status first with
          | error e =>
            refine Or.inl ⟨e, ?_, ?_⟩
            · simp [cycle_candidate, hapi, hchk, hf, hidx, hp]
            · simp [try_block, hapi, hchk, hf, hidx, hp]
          | ok message =>
            refine Or.inr (Or.inr ⟨message, response, ?_, rfl, ?_⟩)
            · simp [cycle_candidate, hapi, hchk, hf, hidx, hp]
            · simp [try_block, hapi, hchk, hf, hidx, hp]

/-- run_cycle when the try block succeeds. -/
theorem run_cycle_of_tb_ok (st : BotState) (inp : CycleInput)
    (r : BotState × List Event) (h : try_block st inp = Except.ok r) :
    run_cycle st inp = (r.1, r.2 ++ [Event.sleep RETRY_PERIOD]) := by
  unfold run_cycle
  rw [h]

/-- run_cycle when the try block raises: the except branch logs the
    diagnostic, re-runs the send-and-update step with the old timestamp,
    then sleeps. -/
theorem run_cycle_of_tb_error (st : BotState) (inp : CycleInput) (e : PyError)
    (h : try_block st inp = Except.error e) :
    run_cycle st inp
      = ((notify_step st inp.transport (PROGRAM_FAIL_MESSAGE e.text) st.timestamp).1,
         (Event.log LogLevel.error (PROGRAM_FAIL_MESSAGE e.text)
           :: (notify_step st inp.transport (PROGRAM_FAIL_MESSAGE e.text) st.timestamp).2)
           ++ [Event.sleep RETRY_PERIOD]) := by
  unfold run_cycle
  rw [h]

/-- A cycle whose candidate message equals last_message does nothing but
    sleep: no delivery attempt, state unchanged. -/
theorem run_cycle_noop (st : BotState) (inp : CycleInput) (m : String)
    (hc : cycle_candidate inp = some m) (heq : st.last_message = m) :
    run_cycle st inp = (st, [Event.sleep RETRY_PERIOD]) := by
  rcases try_block_cases st inp with ⟨e, hc', _⟩ | ⟨hc', _⟩ | ⟨m', resp, hc', hapi, htb⟩
  · rw [hc'] at hc
    exact Option.noConfusion hc
  · rw [hc'] at hc
    exact Option.noConfusion hc
  · rw [hc'] at hc
    injection hc with hm
    subst hm
    rw [run_cycle_of_tb_ok st inp _ htb,
        notify_step_eq st inp.transport m' (pyOr st.timestamp (pyGetD resp "current_date")) heq]
    rfl

/-- A cycle whose candidate message is new and whose transport succeeds
    delivers once and records the message. -/
theorem run_cycle_deliver (st : BotState) (inp : CycleInput) (m : String)
    (hc : cycle_candidate inp = some m) (hne : st.last_message ≠ m)
    (htr : inp.transport = Option.none) :
    ∃ ts, run_cycle st inp
      = (⟨ts, m⟩, [Event.sendAttempt m,
                   Event.log LogLevel.debug (MESSAGE_SENT_MESSAGE m),
                   Event.sleep RETRY_PERIOD]) := by
  rcases try_block_cases st inp with ⟨e, hc', _⟩ | ⟨hc', _⟩ | ⟨m', resp, hc', hapi, htb⟩
  · rw [hc'] at hc
    exact Option.noConfusion hc
  · rw [hc'] at hc
    exact Option.noConfusion hc
  · rw [hc'] at hc
    injection hc with hm
    subst hm
    refine ⟨pyOr st.timestamp (pyGetD resp "current_date"), ?_⟩
    rw [htr] at htb
    rw [notify_step_ok st m' (pyOr st.timestamp (pyGetD resp "current_date")) hne] at htb
    rw [run_cycle_of_tb_ok st inp _ htb]
    rfl

/-- Python or keeps a truthy left operand. -/
theorem pyOr_truthy (a b : PyVal) (h : pyTruthy a = true) : pyOr a b = a := by
  unfold pyTruthy at h
  rw [Bool.not_eq_true'] at h
  unfold pyOr
  simp [h]

/-- When the stored timestamp is truthy (in particular any non-zero
    wall-clock time), no cycle ever changes it. -/
theorem run_cycle_timestamp_truthy (st : BotState) (inp : CycleInput)
    (h : pyTruthy st.timestamp = true) :
    (run_cycle st inp).1.timestamp = st.timestamp := by
  rcases try_block_cases st inp with ⟨er, _, htb⟩ | ⟨_, htb⟩ | ⟨m, resp, _, _, htb⟩
  · rw [run_cycle_of_tb_error st inp er htb]
    rcases notify_step_timestamp st inp.transport (PROGRAM_FAIL_MESSAGE er.text)
      st.timestamp with ht | ht <;> exact ht
  · rw [run_cycle_of_tb_ok st inp _ htb]
  · rw [run_cycle_of_tb_ok st inp _ htb]
    rcases notify_step_timestamp st inp.transport m
      (pyOr st.timestamp (pyGetD resp "current_date")) with ht | ht
    · exact ht
    · rw [ht, pyOr_truthy st.timestamp _ h]

/-- A cycle whose try block raises never changes the timestamp. -/
theorem run_cycle_error_timestamp (st : BotState) (inp : CycleInput) (e : PyError)
    (h : try_block st inp = Except.error e) :
    (run_cycle st inp).1.timestamp = st.timestamp := by
  rw [run_cycle_of_tb_error st inp e h]
  rcases notify_step_timestamp st inp.transport (PROGRAM_FAIL_MESSAGE e.text)
    st.timestamp with ht | ht <;> exact ht

theorem isSendOrLog_not_sleep (e : Event) (h : Event.isSendOrLog e = true) :
    Event.isSleep e = false := by
  cases e <;> simp_all [Event.isSendOrLog, Event.isSleep]

theorem isSendOrLog_not_cred (e : Event) (h : Event.isSendOrLog e = true) :
    Event.isCred e = false := by
  cases e <;> simp_all [Event.isSendOrLog, Event.isCred]

/-- Every event a successful try block emits is a delivery attempt or a
    log line. -/
theorem try_block_ok_events (st : BotState) (inp : CycleInput) (r : BotState × List Event)
    (h : try_block st inp = Except.ok r) :
    ∀ e ∈ r.2, Event.isSendOrLog e = true := by
  rcases try_block_cases st inp with ⟨er, _, htb⟩ | ⟨_, htb⟩ | ⟨m, resp, _, _, htb⟩
  · rw [h] at htb
    exact Except.noConfusion htb
  · rw [h] at htb
    injection htb with hr
    subst hr
    intro e he
    simp only [List.mem_cons, List.not_mem_nil, or_false] at he
    subst he
    rfl
  · rw [h] at htb
    injection htb with hr
    subst hr
    exact notify_step_events st inp.transport m _

/-- Every event of a cycle is a delivery attempt, a log line, or the
    final sleep. -/
theorem run_cycle_events (st : BotState) (inp : CycleInput) :
    ∀ e ∈ (run_cycle st inp).2,
      Event.isSendOrLog e = true ∨ e = Event.sleep RETRY_PERIOD := by
  cases htb : try_block st inp with
  | ok r =>
    rw [run_cycle_of_tb_ok st inp r htb]
    intro e he
    rcases List.mem_append.mp he with h | h
    · exact Or.inl (try_block_ok_events st inp r htb e h)
    · simp only [List.mem_cons, List.not_mem_nil, or_false] at h
      exact Or.inr h
  | error er =>
    rw [run_cycle_of_tb_error st inp er htb]
    intro e he
    rcases List.mem_append.mp he with h | h
    · rcases List.mem_cons.mp h with rfl | h2
      · exact Or.inl rfl
      · exact Or.inl (notify_step_events st inp.transport _ _ e h2)
    · simp only [List.mem_cons, List.not_mem_nil, or_false] at h
      exact Or.inr h

/-- Exactly one sleep per cycle, whatever happened inside it. -/
theorem run_cycle_sleep_count (st : BotState) (inp : CycleInput) :
    ((run_cycle st inp).2.countP Event.isSleep) = 1 := by
  cases htb : try_block st inp with
  | ok r =>
    rw [run_cycle_of_tb_ok st inp r htb, List.countP_append]
    have h0 : (r.2.countP Event.isSleep) = 0 :=
      List.countP_eq_zero.mpr (fun a ha => by
        rw [isSendOrLog_not_sleep a (try_block_ok_events st inp r htb a ha)]
        simp)
    rw [h0]
    rfl
  | error er =>
    rw [run_cycle_of_tb_error st inp er htb, List.countP_append, List.countP_cons]
    have h0 : ((notify_step st inp.transport (PROGRAM_FAIL_MESSAGE er.text)
        st.timestamp).2.countP Event.isSleep) = 0 :=
      List.countP_eq_zero.mpr (fun a ha => by
        rw [isSendOrLog_not_sleep a (notify_step_events st inp.transport _ _ a ha)]
        simp)
    rw [h0]
    rfl

/-- One sleep per scheduled cycle: the loop always reaches its suspension
    point, never terminating early. -/
theorem run_cycles_sleep_count (inputs : List CycleInput) :
    ∀ st : BotState, ((run_cycles st inputs).2.countP Event.isSleep) = inputs.length := by
  induction inputs with
  | nil =>
    intro st
    rfl
  | cons inp rest ih =>
    intro st
    simp only [run_cycles]
    rw [List.countP_append, run_cycle_sleep_count st inp, ih]
    simp [Nat.add_comm]

/-- The loop never emits a credential-check event. -/
theorem run_cycles_cred_count (inputs : List CycleInput) :
    ∀ st : BotState, ((run_cycles st inputs).2.countP Event.isCred) = 0 := by
  induction inputs with
  | nil =>
    intro st
    rfl
  | cons inp rest ih =>
    intro st
    simp only [run_cycles]
    rw [List.countP_append, ih]
    have h0 : ((run_cycle st inp).2.countP Event.isCred) = 0 :=
      List.countP_eq_zero.mpr (fun a ha => by
        rcases run_cycle_events st inp a ha with h | h
        · rw [isSendOrLog_not_cred a h]
          simp
        · subst h
          simp [Event.isCred])
    rw [h0]

/-- Every event check_tokens emits is a critical log line. -/
theorem check_tokens_events (c : Credentials) :
    ∀ e ∈ (check_tokens c).1, ∃ s, e = Event.log LogLevel.critical s := by
  intro e he
  simp only [check_tokens] at he
  by_cases h : (TOKEN_NAMES.filter (fun name => tokenFalsy (c.get name))).isEmpty
  · rw [if_pos h] at he
    simp at he
  · rw [if_neg h] at he
    simp only [List.mem_cons, List.not_mem_nil, or_false] at he
    exact ⟨_, he⟩

/-- A passing credential check logs nothing. -/
theorem check_tokens_ok_events (c : Credentials) (h : (check_tokens c).2 = Except.ok ()) :
    (check_tokens c).1 = [] := by
  simp only [check_tokens] at h ⊢
  by_cases hb : (TOKEN_NAMES.filter (fun name => tokenFalsy (c.get name))).isEmpty
  · rw [if_pos hb]
  · rw [if_neg hb] at h
    exact Except.noConfusion h

/-- C2 counterexample: on the response with empty homeworks and
    current_date 1000, starting from cursor 500, the cycle leaves the
    cursor at 500; it does not advance to 1001 as the claim states. -/
theorem c2_counterexample :
    (run_cycle ⟨PyVal.int 500, NO_NEW_HOMEWORK_MESSAGE⟩
        ⟨Except.ok (PyVal.dict [("homeworks", PyVal.list []),
           ("current_date", PyVal.int 1000)]), Option.none⟩).1.timestamp
      = PyVal.int 500
    ∧ PyVal.int 500 ≠ PyVal.int 1001 := by
  refine ⟨rfl, ?_⟩
  intro h
  injection h with h'
  exact absurd h' (by decide)

/-- C2 (amended): the cursor is reassigned only in the branch where a
    changed message was delivered successfully, and there via the
    assignment timestamp := timestamp or current_date, which keeps the
    old value whenever it is truthy and never adds one; since main seeds
    the cursor with a non-zero wall-clock time, the cursor never changes.
    A cycle whose try block raises (in particular a response failing
    validation) also never changes it; and on the empty-homeworks
    response with current_date 1000 the cycle only logs the debug line
    and sleeps, cursor unchanged. -/
theorem c2_cursor_never_advances :
    (∀ (st : BotState) (inp : CycleInput), pyTruthy st.timestamp = true →
      (run_cycle st inp).1.timestamp = st.timestamp)
    ∧ (∀ (st : BotState) (inp : CycleInput) (e : PyError),
      try_block st inp = Except.error e →
      (run_cycle st inp).1.timestamp = st.timestamp)
    ∧ run_cycle ⟨PyVal.int 500, NO_NEW_HOMEWORK_MESSAGE⟩
        ⟨Except.ok (PyVal.dict [("homeworks", PyVal.list []),
           ("current_date", PyVal.int 1000)]), Option.none⟩
      = (⟨PyVal.int 500, NO_NEW_HOMEWORK_MESSAGE⟩,
         [Event.log LogLevel.debug NO_NEW_HOMEWORK_MESSAGE,
          Event.sleep RETRY_PERIOD]) :=
  ⟨fun st inp h => run_cycle_timestamp_truthy st inp h,
   fun st inp e h => run_cycle_error_timestamp st inp e h,
   rfl⟩

/-- C2 witness: the amended rules at concrete cycles: a truthy cursor
    survives the empty-homeworks cycle, and a cycle whose API call
    raised leaves even a zero cursor unchanged. -/
theorem c2_cursor_never_advances_witness :
    (run_cycle ⟨PyVal.int 500, NO_NEW_HOMEWORK_MESSAGE⟩
        ⟨Except.ok (PyVal.dict [("homeworks", PyVal.list []),
           ("current_date", PyVal.int 1000)]), Option.none⟩).1.timestamp
      = (⟨PyVal.int 500, NO_NEW_HOMEWORK_MESSAGE⟩ : BotState).timestamp
    ∧ (run_cycle ⟨PyVal.int 0, NO_NEW_HOMEWORK_MESSAGE⟩
        ⟨Except.error (PyError.connectionError "boom"), Option.none⟩).1.timestamp
      = (⟨PyVal.int 0, NO_NEW_HOMEWORK_MESSAGE⟩ : BotState).timestamp :=
  ⟨c2_cursor_never_advances.1 ⟨PyVal.int 500, NO_NEW_HOMEWORK_MESSAGE⟩
     ⟨Except.ok (PyVal.dict [("homeworks", PyVal.list []),
        ("current_date", PyVal.int 1000)]), Option.none⟩ rfl,
   c2_cursor_never_advances.2.1 ⟨PyVal.int 0, NO_NEW_HOMEWORK_MESSAGE⟩
     ⟨Except.error (PyError.connectionError "boom"), Option.none⟩
     (PyError.connectionError "boom") rfl⟩

/-- C6: a cycle whose delivery fails leaves the whole state unchanged,
    so the identical message is retried next cycle; and last_message
    changes only when the transport reported success on an attempted
    delivery of that very message — in the normal and the
    error-diagnostic path alike. -/
theorem c6_retry_until_delivered :
    (∀ (st : BotState) (inp : CycleInput) (e : String),
      inp.transport = some e → (run_cycle st inp).1 = st)
    ∧ (∀ (st : BotState) (inp : CycleInput),
      (run_cycle st inp).1.last_message ≠ st.last_message →
      inp.transport = Option.none
        ∧ Event.sendAttempt ((run_cycle st inp).1.last_message)
            ∈ (run_cycle st inp).2) := by
  constructor
  · intro st inp e htr
    rcases try_block_cases st inp with ⟨er, _, htb⟩ | ⟨_, htb⟩ | ⟨m, resp, _, _, htb⟩
    · rw [run_cycle_of_tb_error st inp er htb, htr]
      exact notify_step_fail_state st e _ st.timestamp
    · rw [run_cycle_of_tb_ok st inp _ htb]
    · rw [run_cycle_of_tb_ok st inp _ htb, htr]
      exact notify_step_fail_state st e m _
  · intro st inp hne
    rcases try_block_cases st inp with ⟨er, _, htb⟩ | ⟨_, htb⟩ | ⟨m, resp, _, _, htb⟩
    · rw [run_cycle_of_tb_error st inp er htb] at hne ⊢
      rcases notify_step_state st inp.transport (PROGRAM_FAIL_MESSAGE er.text)
        st.timestamp with h | ⟨htr, hne', heq⟩
      · rw [h] at hne
        exact absurd rfl hne
      · rw [heq]
        exact ⟨htr, by simp⟩
    · rw [run_cycle_of_tb_ok st inp _ htb] at hne
      exact absurd rfl hne
    · rw [run_cycle_of_tb_ok st inp _ htb] at hne ⊢
      rcases notify_step_state st inp.transport m
        (pyOr st.timestamp (pyGetD resp "current_date")) with h | ⟨htr, hne', heq⟩
      · rw [h] at hne
        exact absurd rfl hne
      · rw [heq]
        exact ⟨htr, by simp⟩

/-- C6 witness: a failing transport leaves the state unchanged on a
    cycle that wanted to deliver, and the concrete successful delivery
    cycle indeed attempted the recorded message with transport success. -/
theorem c6_retry_until_delivered_witness :
    (run_cycle ⟨PyVal.int 500, NO_NEW_HOMEWORK_MESSAGE⟩
        ⟨Except.ok (PyVal.dict [("homeworks", PyVal.list [PyVal.dict
           [("homework_name", PyVal.str "proj1"), ("status", PyVal.str "reviewing")]]),
           ("current_date", PyVal.int 1000)]), some "boom"⟩).1
      = ⟨PyVal.int 500, NO_NEW_HOMEWORK_MESSAGE⟩
    ∧ ((⟨Except.ok (PyVal.dict [("homeworks", PyVal.list [PyVal.dict
           [("homework_name", PyVal.str "proj1"), ("status", PyVal.str "reviewing")]]),
           ("current_date", PyVal.int 1000)]), Option.none⟩ : CycleInput).transport
          = Option.none
        ∧ Event.sendAttempt ((run_cycle ⟨PyVal.int 500, NO_NEW_HOMEWORK_MESSAGE⟩
            ⟨Except.ok (PyVal.dict [("homeworks", PyVal.list [PyVal.dict
               [("homework_name", PyVal.str "proj1"), ("status", PyVal.str "reviewing")]]),
               ("current_date", PyVal.int 1000)]), Option.none⟩).1.last_message)
            ∈ (run_cycle ⟨PyVal.int 500, NO_NEW_HOMEWORK_MESSAGE⟩
            ⟨Except.ok (PyVal.dict [("homeworks", PyVal.list [PyVal.dict
               [("homework_name", PyVal.str "proj1"), ("status", PyVal.str "reviewing")]]),
               ("current_date", PyVal.int 1000)]), Option.none⟩).2) :=
  ⟨c6_retry_until_delivered.1 ⟨PyVal.int 500, NO_NEW_HOMEWORK_MESSAGE⟩
     ⟨Except.ok (PyVal.dict [("homeworks", PyVal.list [PyVal.dict
        [("homework_name", PyVal.str "proj1"), ("status", PyVal.str "reviewing")]]),
        ("current_date", PyVal.int 1000)]), some "boom"⟩ "boom" rfl,
   c6_retry_until_delivered.2 ⟨PyVal.int 500, NO_NEW_HOMEWORK_MESSAGE⟩
     ⟨Except.ok (PyVal.dict [("homeworks", PyVal.list [PyVal.dict
        [("homework_name", PyVal.str "proj1"), ("status", PyVal.str "reviewing")]]),
        ("current_date", PyVal.int 1000)]), Option.none⟩ (by decide)⟩

/-- C7: when the parsed candidate message equals last_message, the cycle
    makes no delivery attempt and leaves the state unchanged; and over
    two consecutive cycles producing the same candidate — starting from
    a different last_message, with the first delivery succeeding —
    exactly one delivery attempt happens in total. -/
theorem c7_diff_against_last_message :
    (∀ (st : BotState) (inp : CycleInput) (m : String),
      cycle_candidate inp = some m → st.last_message = m →
      run_cycle st inp = (st, [Event.sleep RETRY_PERIOD]))
    ∧ (∀ (st : BotState) (inp1 inp2 : CycleInput) (m : String),
      cycle_candidate inp1 = some m → cycle_candidate inp2 = some m →
      st.last_message ≠ m → inp1.transport = Option.none →
      ((run_cycles st [inp1, inp2]).2.countP Event.isSend) = 1) := by
  refine ⟨fun st inp m hc heq => run_cycle_noop st inp m hc heq, ?_⟩
  intro st inp1 inp2 m hc1 hc2 hne htr
  obtain ⟨ts, h1⟩ := run_cycle_deliver st inp1 m hc1 hne htr
  have h2 : run_cycle (⟨ts, m⟩ : BotState) inp2 = (⟨ts, m⟩, [Event.sleep RETRY_PERIOD]) :=
    run_cycle_noop ⟨ts, m⟩ inp2 m hc2 rfl
  simp [run_cycles, h1, h2, List.countP_cons, List.countP_append, Event.isSend]

/-- C7 witness: the identical response fed to two consecutive cycles
    yields exactly one delivery attempt, and a cycle whose candidate
    message is already recorded only sleeps. -/
theorem c7_diff_against_last_message_witness :
    run_cycle ⟨PyVal.int 500,
        "Изменился статус проверки работы \"proj1\". Работа взята на проверку ревьюером."⟩
      ⟨Except.ok (PyVal.dict [("homeworks", PyVal.list [PyVal.dict
         [("homework_name", PyVal.str "proj1"), ("status", PyVal.str "reviewing")]]),
         ("current_date", PyVal.int 1000)]), Option.none⟩
      = (⟨PyVal.int 500,
          "Изменился статус проверки работы \"proj1\". Работа взята на проверку ревьюером."⟩,
         [Event.sleep RETRY_PERIOD])
    ∧ ((run_cycles ⟨PyVal.int 500, NO_NEW_HOMEWORK_MESSAGE⟩
        [⟨Except.ok (PyVal.dict [("homeworks", PyVal.list [PyVal.dict
           [("homework_name", PyVal.str "proj1"), ("status", PyVal.str "reviewing")]]),
           ("current_date", PyVal.int 1000)]), Option.none⟩,
         ⟨Except.ok (PyVal.dict [("homeworks", PyVal.list [PyVal.dict
           [("homework_name", PyVal.str "proj1"), ("status", PyVal.str "reviewing")]]),
           ("current_date", PyVal.int 1000)]), Option.none⟩]).2.countP Event.isSend) = 1 :=
  ⟨c7_diff_against_last_message.1 ⟨PyVal.int 500,
      "Изменился статус проверки работы \"proj1\". Работа взята на проверку ревьюером."⟩
     ⟨Except.ok (PyVal.dict [("homeworks", PyVal.list [PyVal.dict
        [("homework_name", PyVal.str "proj1"), ("status", PyVal.str "reviewing")]]),
        ("current_date", PyVal.int 1000)]), Option.none⟩
     "Изменился статус проверки работы \"proj1\". Работа взята на проверку ревьюером."
     rfl rfl,
   c7_diff_against_last_message.2 ⟨PyVal.int 500, NO_NEW_HOMEWORK_MESSAGE⟩
     ⟨Except.ok (PyVal.dict [("homeworks", PyVal.list [PyVal.dict
        [("homework_name", PyVal.str "proj1"), ("status", PyVal.str "reviewing")]]),
        ("current_date", PyVal.int 1000)]), Option.none⟩
     ⟨Except.ok (PyVal.dict [("homeworks", PyVal.list [PyVal.dict
        [("homework_name", PyVal.str "proj1"), ("status", PyVal.str "reviewing")]]),
        ("current_date", PyVal.int 1000)]), Option.none⟩
     "Изменился статус проверки работы \"proj1\". Работа взята на проверку ревьюером."
     rfl rfl (by decide) rfl⟩

/-- C8: the credential check succeeds exactly when all three tokens are
    present and non-empty; on failure it logs the full list of missing
    names at critical severity and raises ValueError carrying the same
    full list, main then terminates with that error having produced no
    cycle event at all (no sleep, no delivery attempt); and in every run
    of main the credential check happens exactly once, as the very first
    event. -/
theorem c8_credential_gate :
    (∀ c : Credentials, (check_tokens c).2 = Except.ok ()
      ↔ (tokenFalsy c.practicum_token = false ∧ tokenFalsy c.telegram_token = false
          ∧ tokenFalsy c.telegram_chat_id = false))
    ∧ (∀ c : Credentials,
        TOKEN_NAMES.filter (fun name => tokenFalsy (c.get name)) ≠ [] →
        check_tokens c
          = ([Event.log LogLevel.critical (TOKEN_ABSENCE_MESSAGE (pyStrList
               (TOKEN_NAMES.filter (fun name => tokenFalsy (c.get name)))))],
             Except.error (PyError.valueError (TOKEN_ABSENCE_MESSAGE (pyStrList
               (TOKEN_NAMES.filter (fun name => tokenFalsy (c.get name))))))))
    ∧ (∀ (c : Credentials) (t0 : Int) (inputs : List CycleInput) (e : PyError),
        (check_tokens c).2 = Except.error e →
        homework_main c t0 inputs
          = (Event.credentialCheck :: (check_tokens c).1, Except.error e)
        ∧ ((homework_main c t0 inputs).1.countP Event.isSleep) = 0
        ∧ ((homework_main c t0 inputs).1.countP Event.isSend) = 0)
    ∧ (∀ (c : Credentials) (t0 : Int) (inputs : List CycleInput),
        ((homework_main c t0 inputs).1.countP Event.isCred) = 1
        ∧ (homework_main c t0 inputs).1.head? = some Event.credentialCheck) := by
  refine ⟨?_, ?_, ?_, ?_⟩
  · intro c
    have g1 : c.get "PRACTICUM_TOKEN" = c.practicum_token := rfl
    have g2 : c.get "TELEGRAM_TOKEN" = c.telegram_token := rfl
    have g3 : c.get "TELEGRAM_CHAT_ID" = c.telegram_chat_id := rfl
    by_cases b1 : tokenFalsy c.practicum_token <;>
      by_cases b2 : tokenFalsy c.telegram_token <;>
        by_cases b3 : tokenFalsy c.telegram_chat_id <;>
          simp [check_tokens, TOKEN_NAMES, List.filter_cons, g1, g2, g3, b1, b2, b3]
  · intro c h
    have hb : ¬ ((TOKEN_NAMES.filter (fun name => tokenFalsy (c.get name))).isEmpty = true) := by
      rw [List.isEmpty_iff]
      exact h
    simp only [check_tokens]
    rw [if_neg hb]
  · intro c t0 inputs e he
    have hmain : homework_main c t0 inputs
        = (Event.credentialCheck :: (check_tokens c).1, Except.error e) := by
      simp [homework_main, he]
    have h1 : ((check_tokens c).1.countP Event.isSleep) = 0 :=
      List.countP_eq_zero.mpr (fun a ha => by
        obtain ⟨s, hs⟩ := check_tokens_events c a ha
        subst hs
        simp [Event.isSleep])
    have h2 : ((check_tokens c).1.countP Event.isSend) = 0 :=
      List.countP_eq_zero.mpr (fun a ha => by
        obtain ⟨s, hs⟩ := check_tokens_events c a ha
        subst hs
        simp [Event.isSend])
    refine ⟨hmain, ?_, ?_⟩
    · rw [hmain, List.countP_cons, h1]
      rfl
    · rw [hmain, List.countP_cons, h2]
      rfl
  · intro c t0 inputs
    cases hc : (check_tokens c).2 with
    | error e =>
      have hmain : homework_main c t0 inputs
          = (Event.credentialCheck :: (check_tokens c).1, Except.error e) := by
        simp [homework_main, hc]
      have h0 : ((check_tokens c).1.countP Event.isCred) = 0 :=
        List.countP_eq_zero.mpr (fun a ha => by
          obtain ⟨s, hs⟩ := check_tokens_events c a ha
          subst hs
          simp [Event.isCred])
      constructor
      · rw [hmain, List.countP_cons, h0]
        rfl
      · rw [hmain]
        rfl
    | ok u =>
      cases u
      have hev := check_tokens_ok_events c hc
      have hmain : homework_main c t0 inputs
          = (Event.credentialCheck :: ((check_tokens c).1
              ++ (run_cycles ⟨PyVal.int t0, NO_NEW_HOMEWORK_MESSAGE⟩ inputs).2),
             Except.ok (run_cycles ⟨PyVal.int t0, NO_NEW_HOMEWORK_MESSAGE⟩ inputs).1) := by
        simp [homework_main, hc]
      constructor
      · rw [hmain, List.countP_cons, hev]
        simp [run_cycles_cred_count inputs, Event.isCred]
      · rw [hmain]
        rfl

/-- C8 witness: a complete credential set passes; with PRACTICUM_TOKEN
    absent and TELEGRAM_CHAT_ID empty, the check reports both missing
    names, main stops with the ValueError before any cycle, and the
    credential check is the sole first event. -/
theorem c8_credential_gate_witness :
    (check_tokens ⟨some "a", some "b", some "c"⟩).2 = Except.ok ()
    ∧ check_tokens ⟨Option.none, some "b", some ""⟩
        = ([Event.log LogLevel.critical (TOKEN_ABSENCE_MESSAGE (pyStrList
             (TOKEN_NAMES.filter (fun name =>
                tokenFalsy ((⟨Option.none, some "b", some ""⟩ : Credentials).get name)))))],
           Except.error (PyError.valueError (TOKEN_ABSENCE_MESSAGE (pyStrList
             (TOKEN_NAMES.filter (fun name =>
                tokenFalsy ((⟨Option.none, some "b", some ""⟩ : Credentials).get name)))))))
    ∧ homework_main ⟨Option.none, some "b", some ""⟩ 500 []
        = (Event.credentialCheck :: (check_tokens ⟨Option.none, some "b", some ""⟩).1,
           Except.error (PyError.valueError (TOKEN_ABSENCE_MESSAGE (pyStrList
             ["PRACTICUM_TOKEN", "TELEGRAM_CHAT_ID"]))))
    ∧ ((homework_main ⟨some "a", some "b", some "c"⟩ 500 []).1.countP Event.isCred) = 1 :=
  ⟨(c8_credential_gate.1 ⟨some "a", some "b", some "c"⟩).mpr ⟨rfl, rfl, rfl⟩,
   c8_credential_gate.2.1 ⟨Option.none, some "b", some ""⟩ (by decide),
   (c8_credential_gate.2.2.1 ⟨Option.none, some "b", some ""⟩ 500 []
      (PyError.valueError (TOKEN_ABSENCE_MESSAGE (pyStrList
        ["PRACTICUM_TOKEN", "TELEGRAM_CHAT_ID"]))) rfl).1,
   (c8_credential_gate.2.2.2 ⟨some "a", some "b", some "c"⟩ 500 []).1⟩

/-- C10: the loop is the failure boundary: every scheduled cycle ends in
    exactly one unconditional 600-second sleep whatever happened inside
    it (so no cycle failure terminates the run), the sleep is the last
    event of every cycle, and a cycle whose try block raised logs the
    operator-facing diagnostic at error severity and attempts to forward
    it whenever it differs from the last notified message. -/
theorem c10_loop_failure_boundary :
    (∀ (st : BotState) (inputs : List CycleInput),
      ((run_cycles st inputs).2.countP Event.isSleep) = inputs.length)
    ∧ (∀ (st : BotState) (inp : CycleInput),
      (run_cycle st inp).2.getLast? = some (Event.sleep RETRY_PERIOD))
    ∧ (∀ (st : BotState) (inp : CycleInput) (e : PyError),
      try_block st inp = Except.error e →
      Event.log LogLevel.error (PROGRAM_FAIL_MESSAGE e.text) ∈ (run_cycle st inp).2
        ∧ (PROGRAM_FAIL_MESSAGE e.text ≠ st.last_message →
            Event.sendAttempt (PROGRAM_FAIL_MESSAGE e.text) ∈ (run_cycle st inp).2)) := by
  refine ⟨fun st inputs => run_cycles_sleep_count inputs st, ?_, ?_⟩
  · intro st inp
    cases htb : try_block st inp with
    | ok r =>
      rw [run_cycle_of_tb_ok st inp r htb]
      exact List.getLast?_concat _
    | error er =>
      rw [run_cycle_of_tb_error st inp er htb]
      exact List.getLast?_concat _
  · intro st inp e htb
    rw [run_cycle_of_tb_error st inp e htb]
    constructor
    · exact List.mem_append_left _ (List.mem_cons_self _ _)
    · intro hne
      have hmem := notify_step_send_mem st inp.transport (PROGRAM_FAIL_MESSAGE e.text)
        st.timestamp (fun hh => hne hh.symm)
      exact List.mem_append_left _ (List.mem_cons_of_mem _ hmem)

/-- C10 witness: a cycle whose API call raised still ends in the sleep,
    logs the diagnostic, and attempts to forward it. -/
theorem c10_loop_failure_boundary_witness :
    ((run_cycles ⟨PyVal.int 500, NO_NEW_HOMEWORK_MESSAGE⟩ []).2.countP Event.isSleep) = 0
    ∧ (run_cycle ⟨PyVal.int 500, NO_NEW_HOMEWORK_MESSAGE⟩
        ⟨Except.error (PyError.connectionError "boom"), Option.none⟩).2.getLast?
      = some (Event.sleep RETRY_PERIOD)
    ∧ Event.log LogLevel.error (PROGRAM_FAIL_MESSAGE (PyError.connectionError "boom").text)
        ∈ (run_cycle ⟨PyVal.int 500, NO_NEW_HOMEWORK_MESSAGE⟩
            ⟨Except.error (PyError.connectionError "boom"), Option.none⟩).2
    ∧ Event.sendAttempt (PROGRAM_FAIL_MESSAGE (PyError.connectionError "boom").text)
        ∈ (run_cycle ⟨PyVal.int 500, NO_NEW_HOMEWORK_MESSAGE⟩
            ⟨Except.error (PyError.connectionError "boom"), Option.none⟩).2 :=
  ⟨c10_loop_failure_boundary.1 ⟨PyVal.int 500, NO_NEW_HOMEWORK_MESSAGE⟩ [],
   c10_loop_failure_boundary.2.1 ⟨PyVal.int 500, NO_NEW_HOMEWORK_MESSAGE⟩
     ⟨Except.error (PyError.connectionError "boom"), Option.none⟩,
   (c10_loop_failure_boundary.2.2 ⟨PyVal.int 500, NO_NEW_HOMEWORK_MESSAGE⟩
     ⟨Except.error (PyError.connectionError "boom"), Option.none⟩
     (PyError.connectionError "boom") rfl).1,
   (c10_loop_failure_boundary.2.2 ⟨PyVal.int 500, NO_NEW_HOMEWORK_MESSAGE⟩
     ⟨Except.error (PyError.connectionError "boom"), Option.none⟩
     (PyError.connectionError "boom") rfl).2 (by decide)⟩
